import Mathlib

/-!
Shallow embedding of the session/cache/health core of the mcp-server package
(src/mcp-server/src/): `session_manager.py`, `cache_service.py`,
`health_service.py`, with the data declarations they import from `types.py`.

Python conventions used throughout the embedding:
* timestamps (`datetime.utcnow()`) are integer seconds, passed explicitly as a
  `now : Int` argument;
* Python dicts are association lists over `String` keys threaded through each
  operation as explicit state;
* a function that can raise returns `Except PyErr _`; a raised exception that
  the source catches is matched and turned into the benign value the source
  returns there;
* `uuid4()` is an explicit `uuid : String` argument.
-/

/-- Python exception classes that appear in the embedded code. -/
inductive PyErr where
  /-- `RuntimeError`, raised on access before the backend connection exists. -/
  | runtimeError
  /-- `TypeError`, e.g. an unexpected keyword argument in a dataclass call. -/
  | typeError
  /-- `AttributeError`, e.g. a missing enum member. -/
  | attributeError
  /-- `ValueError` (also covers `json.JSONDecodeError`, its subclass). -/
  | valueError
  /-- any exception raised inside the Redis client during a backend call. -/
  | backendError
deriving DecidableEq, Repr

/-- Python values as stored by the in-memory cache (`None`, scalars, text). -/
inductive PyVal where
  | none
  | bool (b : Bool)
  | int (n : Int)
  | str (s : String)
deriving DecidableEq, Repr

/-- `isinstance(value, (str, int, float, bool))` — the "simple" test of
`RedisCacheService._serialize_value`; Python `None` is not simple. -/
def PyVal.isSimple : PyVal → Bool
  | .none => false
  | .bool _ => true
  | .int _ => true
  | .str _ => true

/-- First binding of `k` in a Python-dict-as-association-list (`d.get(k)`). -/
def assocFind {α : Type} : List (String × α) → String → Option α
  | [], _ => Option.none
  | (k1, v1) :: rest, k => if k1 = k then some v1 else assocFind rest k

/-- `d[k] = v`: replace the first binding of `k`, else append it. -/
def assocSet {α : Type} : List (String × α) → String → α → List (String × α)
  | [], k, v => [(k, v)]
  | (k1, v1) :: rest, k, v =>
      if k1 = k then (k, v) :: rest else (k1, v1) :: assocSet rest k v

/-- `del d[k]`: drop every binding of `k` (a Python dict has at most one). -/
def assocErase {α : Type} (l : List (String × α)) (k : String) : List (String × α) :=
  l.filter (fun p => p.1 ≠ k)

/-!
### SHA-256

`CacheManager.cache_key_for_suggestion` and its siblings call
`hashlib.sha256(content.encode()).hexdigest()`.  The hash itself is Python
standard-library code; it is embedded here in full (FIPS 180-4) over `Nat`
with explicit `% 2^32` wrapping, and validated below against the standard
test vectors.
-/

/-- 32-bit right rotation. -/
def rotr32 (x n : Nat) : Nat := ((x >>> n) ||| (x <<< (32 - n))) % 4294967296

/-- UTF-8 encoding of one code point (what Python's `str.encode()` emits). -/
def utf8EncodeChar (c : Char) : List Nat :=
  let n := c.toNat
  if n < 128 then [n]
  else if n < 2048 then [192 ||| (n >>> 6), 128 ||| (n &&& 63)]
  else if n < 65536 then
    [224 ||| (n >>> 12), 128 ||| ((n >>> 6) &&& 63), 128 ||| (n &&& 63)]
  else
    [240 ||| (n >>> 18), 128 ||| ((n >>> 12) &&& 63),
     128 ||| ((n >>> 6) &&& 63), 128 ||| (n &&& 63)]

/-- UTF-8 bytes of a string. -/
def utf8Encode (s : String) : List Nat :=
  (s.data.map utf8EncodeChar).flatten

/-- A `Nat` as 8 big-endian bytes. -/
def be64 (n : Nat) : List Nat :=
  [(n >>> 56) % 256, (n >>> 48) % 256, (n >>> 40) % 256, (n >>> 32) % 256,
   (n >>> 24) % 256, (n >>> 16) % 256, (n >>> 8) % 256, n % 256]

/-- SHA-256 padding: append 0x80, zeros to 56 mod 64, then the bit length. -/
def sha256Pad (m : List Nat) : List Nat :=
  let l := m.length
  let z := (119 - (l % 64)) % 64
  m ++ 128 :: (List.replicate z 0 ++ be64 (8 * l))

/-- Split a byte list into 64-byte blocks (structural recursion on a fuel
bound, so the kernel can evaluate it; `l.length` blocks always suffice). -/
def chunksAux : Nat → List Nat → List (List Nat)
  | 0, _ => []
  | _, [] => []
  | fuel + 1, l => l.take 64 :: chunksAux fuel (l.drop 64)

/-- Split a byte list into 64-byte blocks. -/
def chunks64 (l : List Nat) : List (List Nat) := chunksAux l.length l

/-- Pack bytes into big-endian 32-bit words. -/
def bytesToWords : List Nat → List Nat
  | b0 :: b1 :: b2 :: b3 :: rest =>
      ((b0 <<< 24) ||| (b1 <<< 16) ||| (b2 <<< 8) ||| b3) :: bytesToWords rest
  | _ => []

/-- Extend the 16 message-schedule words to 64 (`k` more iterations). -/
def sha256Extend : Nat → List Nat → List Nat
  | 0, w => w
  | k + 1, w =>
      let i := w.length
      let x15 := w.getD (i - 15) 0
      let x2 := w.getD (i - 2) 0
      let s0 := (rotr32 x15 7) ^^^ (rotr32 x15 18) ^^^ (x15 >>> 3)
      let s1 := (rotr32 x2 17) ^^^ (rotr32 x2 19) ^^^ (x2 >>> 10)
      sha256Extend k (w ++ [(w.getD (i - 16) 0 + s0 + w.getD (i - 7) 0 + s1) % 4294967296])

/-- The eight SHA-256 working variables. -/
structure Sha256State where
  a : Nat
  b : Nat
  c : Nat
  d : Nat
  e : Nat
  f : Nat
  g : Nat
  h : Nat
deriving DecidableEq, Repr

/-- The 64 SHA-256 round constants K0..K63 of FIPS 180-4, written as
decimal literals. -/
def shaK : List Nat :=
  [1116352408, 1899447441, 3049323471, 3921009573, 961987163, 1508970993,
   2453635748, 2870763221, 3624381080, 310598401, 607225278, 1426881987,
   1925078388, 2162078206, 2614888103, 3248222580, 3835390401, 4022224774,
   264347078, 604807628, 770255983, 1249150122, 1555081692, 1996064986,
   2554220882, 2821834349, 2952996808, 3210313671, 3336571891, 3584528711,
   113926993, 338241895, 666307205, 773529912, 1294757372, 1396182291,
   1695183700, 1986661051, 2177026350, 2456956037, 2730485921, 2820302411,
   3259730800, 3345764771, 3516065817, 3600352804, 4094571909, 275423344,
   430227734, 506948616, 659060556, 883997877, 958139571, 1322822218,
   1537002063, 1747873779, 1955562222, 2024104815, 2227730452, 2361852424,
   2428436474, 2756734187, 3204031479, 3329325298]

/-- One SHA-256 compression round for round constant `kw.1` and word `kw.2`. -/
def sha256Round (st : Sha256State) (kw : Nat × Nat) : Sha256State :=
  let bigS1 := (rotr32 st.e 6) ^^^ (rotr32 st.e 11) ^^^ (rotr32 st.e 25)
  let ch := (st.e &&& st.f) ^^^ ((st.e ^^^ 4294967295) &&& st.g)
  let t1 := (st.h + bigS1 + ch + kw.1 + kw.2) % 4294967296
  let bigS0 := (rotr32 st.a 2) ^^^ (rotr32 st.a 13) ^^^ (rotr32 st.a 22)
  let mj := (st.a &&& st.b) ^^^ (st.a &&& st.c) ^^^ (st.b &&& st.c)
  let t2 := (bigS0 + mj) % 4294967296
  ⟨(t1 + t2) % 4294967296, st.a, st.b, st.c, (st.d + t1) % 4294967296, st.e, st.f, st.g⟩

/-- Process one 64-byte block. -/
def sha256Block (hs : Sha256State) (block : List Nat) : Sha256State :=
  let ws := sha256Extend 48 (bytesToWords block)
  let st := (shaK.zip ws).foldl sha256Round hs
  ⟨(hs.a + st.a) % 4294967296, (hs.b + st.b) % 4294967296,
   (hs.c + st.c) % 4294967296, (hs.d + st.d) % 4294967296,
   (hs.e + st.e) % 4294967296, (hs.f + st.f) % 4294967296,
   (hs.g + st.g) % 4294967296, (hs.h + st.h) % 4294967296⟩

/-- The SHA-256 initial hash value H0..H7 of FIPS 180-4, in decimal. -/
def sha256StateInit : Sha256State :=
  ⟨1779033703, 3144134277, 1013904242, 2773480762,
   1359893119, 2600822924, 528734635, 1541459225⟩

/-- One lowercase hex digit. -/
def hexNibble (n : Nat) : Char := "0123456789abcdef".data.getD n '0'

/-- A 32-bit word as 8 hex digits. -/
def hex32 (n : Nat) : String :=
  String.mk ((List.range 8).map fun i => hexNibble ((n >>> (28 - 4 * i)) % 16))

/-- `hashlib.sha256(s.encode()).hexdigest()`. -/
def sha256Hex (s : String) : String :=
  let fin := (chunks64 (sha256Pad (utf8Encode s))).foldl sha256Block sha256StateInit
  hex32 fin.a ++ hex32 fin.b ++ hex32 fin.c ++ hex32 fin.d ++
  hex32 fin.e ++ hex32 fin.f ++ hex32 fin.g ++ hex32 fin.h

/-!
### Cache Store and Cache Manager (`cache_service.py`)

`InMemoryCacheService` holds one dict `self.cache` mapping the namespaced key
to `{"value": ..., "expires_at": ..., "created_at": ...}`; every method takes
the whole-map lock, so each operation is one atomic state transition.
-/

/-- `ttl = ttl or self.default_ttl`: Python `or` replaces both `None` and a
falsy `0` with the 3600-second default. -/
def pyTtlOrDefault (ttl : Option Int) : Int :=
  match ttl with
  | Option.none => 3600
  | some t => if t = 0 then 3600 else t

/-- One entry of `InMemoryCacheService.cache`; `set` always stores all three
fields, with `expires_at = created_at + ttl`. -/
structure CacheEntry where
  value : PyVal
  expires_at : Int
  created_at : Int
deriving DecidableEq, Repr

namespace InMemoryCacheService

/-- `self.cache`, the dict guarded by `self._lock`. -/
structure State where
  cache : List (String × CacheEntry)
deriving DecidableEq, Repr

/-- `f"{namespace}:{key}"`. -/
def _make_key (key ns : String) : String := ns ++ ":" ++ key

/-- `datetime.utcnow() > cache_entry["expires_at"]`; the `"expires_at" not in
cache_entry` branch of the source never fires, since `set` always stores it. -/
def _is_expired (now : Int) (e : CacheEntry) : Bool := now > e.expires_at

/-- `get`: absent → `None`; expired → delete the entry lazily and return
`None`; else the stored value. -/
def get (st : State) (key ns : String) (now : Int) : PyVal × State :=
  let ck := _make_key key ns
  match assocFind st.cache ck with
  | Option.none => (PyVal.none, st)
  | some e =>
      if _is_expired now e then (PyVal.none, ⟨assocErase st.cache ck⟩)
      else (e.value, st)

/-- `set`: store value with `expires_at = now + ttl`; always returns `True`. -/
def set (st : State) (key : String) (v : PyVal) (ttl : Option Int) (ns : String)
    (now : Int) : Bool × State :=
  let t := pyTtlOrDefault ttl
  (true, ⟨assocSet st.cache (_make_key key ns) ⟨v, now + t, now⟩⟩)

/-- `delete`: drop the key if present, reporting whether it was there. -/
def delete (st : State) (key ns : String) : Bool × State :=
  let ck := _make_key key ns
  match assocFind st.cache ck with
  | some _ => (true, ⟨assocErase st.cache ck⟩)
  | Option.none => (false, st)

/-- `exists`: like `get` but returns presence, with the same lazy expiry
deletion (`exists` is a Lean keyword, hence the trailing underscore). -/
def exists_ (st : State) (key ns : String) (now : Int) : Bool × State :=
  let ck := _make_key key ns
  match assocFind st.cache ck with
  | Option.none => (false, st)
  | some e =>
      if _is_expired now e then (false, ⟨assocErase st.cache ck⟩)
      else (true, st)

end InMemoryCacheService

/-- Python `round(x, 2)`: round half to even at two decimal places, over
exact rationals. -/
def pyRound2 (q : Rat) : Rat :=
  let x := q * 100
  let n : Int := x.floor
  let r := x - (n : Rat)
  let m : Int :=
    if r < 1 / 2 then n
    else if 1 / 2 < r then n + 1
    else if n % 2 = 0 then n else n + 1
  (m : Rat) / 100

namespace CacheManager

/-- The manager's own hit/miss counters (guarded by `self._stats_lock`)
together with the wrapped cache service, here the in-memory backend. -/
structure State where
  hit_count : Nat
  miss_count : Nat
  svc : InMemoryCacheService.State
deriving DecidableEq, Repr

/-- A freshly constructed `CacheManager` over an empty in-memory service. -/
def init : State := ⟨0, 0, ⟨[]⟩⟩

/-- `get_or_set`: cached value `is not None` → count a hit and return it;
else count a miss, call `value_func` (its result is the explicit `computed`
argument), store it and return it. -/
def get_or_set (st : State) (key : String) (computed : PyVal) (ttl : Option Int)
    (ns : String) (now : Int) : PyVal × State :=
  let (cached, svc1) := InMemoryCacheService.get st.svc key ns now
  if cached ≠ PyVal.none then
    (cached, { st with hit_count := st.hit_count + 1, svc := svc1 })
  else
    let st1 : State := { st with miss_count := st.miss_count + 1, svc := svc1 }
    let (_, svc2) := InMemoryCacheService.set st1.svc key computed ttl ns now
    (computed, { st1 with svc := svc2 })

/-- `mget`: one `get` per key, keeping only results that are not `None`;
the hit/miss counters are not touched. -/
def mget : State → List String → String → Int → List (String × PyVal) × State
  | st, [], _, _ => ([], st)
  | st, k :: rest, ns, now =>
      let (v, svc1) := InMemoryCacheService.get st.svc k ns now
      let (tail, st2) := mget { st with svc := svc1 } rest ns now
      (if v ≠ PyVal.none then (k, v) :: tail else tail, st2)

/-- `f"{code}|{language}|{context or ''}"` — the string hashed by
`cache_key_for_suggestion`; `context or ''` canonicalizes both `None` and
the empty string to `''`. -/
def suggestion_content (code language : String) (context : Option String) : String :=
  code ++ "|" ++ language ++ "|" ++ (match context with
    | Option.none => ""
    | some c => if c = "" then "" else c)

/-- `cache_key_for_suggestion`: SHA-256 hex digest of the joined fields. -/
def cache_key_for_suggestion (code language : String) (context : Option String) : String :=
  sha256Hex (suggestion_content code language context)

/-- The four counter fields `get_cache_stats` adds to the backend stats
(the backend's own dict is merged in by the source but carries no counters). -/
structure CacheStats where
  hit_count : Nat
  miss_count : Nat
  total_requests : Nat
  hit_ratio_percent : Rat
deriving DecidableEq, Repr

/-- `get_cache_stats`: `total = hits + misses`,
`ratio = hits / total * 100` when `total > 0` else `0`, rounded to 2 places. -/
def get_cache_stats (st : State) : CacheStats :=
  let total := st.hit_count + st.miss_count
  let ratio : Rat := if 0 < total then (st.hit_count : Rat) / (total : Rat) * 100 else 0
  ⟨st.hit_count, st.miss_count, total, pyRound2 ratio⟩

end CacheManager

/-!
### Redis-backed services (`RedisCacheService`, `RedisSessionManager`)

Each Redis client call is abstracted as a `BackendCall` outcome: the call
either raises some exception or returns a value.  `connected` stands for
`self.redis_client is not None`.
-/

/-- The outcome of one Redis client call. -/
inductive BackendCall (α : Type) where
  | raises
  | returns (a : α)
deriving DecidableEq, Repr

/-- The tagged wire form `_serialize_value` produces — a JSON object carrying
a `"simple"`/`"complex"` tag and the value, read back by
`_deserialize_value` as `data.get("value")`.  JSON encode/decode are inverse
on this fragment, so the wire text is modeled as the tagged pair itself. -/
structure Serialized where
  tag : String
  value : PyVal
deriving DecidableEq, Repr

namespace RedisCacheService

/-- `_serialize_value`: scalars are tagged `"simple"`, everything else
(Python `None` included) `"complex"`. -/
def _serialize_value (v : PyVal) : Serialized :=
  if v.isSimple then ⟨"simple", v⟩ else ⟨"complex", v⟩

/-- `_deserialize_value`: `data.get("value")`. -/
def _deserialize_value (s : Serialized) : PyVal := s.value

/-- `f"{self.key_prefix}{namespace}:{key}"`. -/
def _make_key (key ns : String) : String := "mcp_cache:" ++ ns ++ ":" ++ key

/-- `get`: hard `RuntimeError` when not connected; afterwards any backend
exception is caught and `None` returned. -/
def get (connected : Bool) (backend : String → BackendCall (Option Serialized))
    (key ns : String) : Except PyErr PyVal :=
  if !connected then Except.error PyErr.runtimeError
  else
    match backend (_make_key key ns) with
    | .raises => Except.ok PyVal.none
    | .returns Option.none => Except.ok PyVal.none
    | .returns (some s) => Except.ok (_deserialize_value s)

/-- `set`: hard `RuntimeError` when not connected; the `setex` call gets the
key, resolved ttl and serialized value, and any exception yields `False`. -/
def set (connected : Bool) (backend : String → Int → Serialized → BackendCall Unit)
    (key : String) (v : PyVal) (ttl : Option Int) (ns : String) : Except PyErr Bool :=
  if !connected then Except.error PyErr.runtimeError
  else
    match backend (_make_key key ns) (pyTtlOrDefault ttl) (_serialize_value v) with
    | .raises => Except.ok false
    | .returns _ => Except.ok true

/-- `delete`: backend reports how many keys were removed; exceptions yield
`False`. -/
def delete (connected : Bool) (backend : String → BackendCall Int)
    (key ns : String) : Except PyErr Bool :=
  if !connected then Except.error PyErr.runtimeError
  else
    match backend (_make_key key ns) with
    | .raises => Except.ok false
    | .returns n => Except.ok (decide (n > 0))

/-- `exists`: same shape as `delete` (`exists` is a Lean keyword). -/
def exists_ (connected : Bool) (backend : String → BackendCall Int)
    (key ns : String) : Except PyErr Bool :=
  if !connected then Except.error PyErr.runtimeError
  else
    match backend (_make_key key ns) with
    | .raises => Except.ok false
    | .returns n => Except.ok (decide (n > 0))

/-- `clear_namespace`: `keys(pattern)` then, when non-empty, `delete(*keys)`;
both calls sit in one `try`, and any exception yields `0`. -/
def clear_namespace (connected : Bool)
    (backendKeys : String → BackendCall (List String))
    (backendDelete : List String → BackendCall Int) (ns : String) : Except PyErr Int :=
  if !connected then Except.error PyErr.runtimeError
  else
    match backendKeys ("mcp_cache:" ++ ns ++ ":*") with
    | .raises => Except.ok 0
    | .returns [] => Except.ok 0
    | .returns (k :: ks) =>
        match backendDelete (k :: ks) with
        | .raises => Except.ok 0
        | .returns n => Except.ok n

end RedisCacheService

/-!
### Sessions (`types.py` and `session_manager.py`)

`types.SessionStatus` has exactly the members ACTIVE, INACTIVE, EXPIRED and
BLOCKED, and `types.Session` is a dataclass with the nine required fields
`id, whatsapp_user, vscode_workspace, status, created_at, last_activity,
context, active_suggestions, metadata` — while `session_manager.py`
constructs `Session(session_id=..., workspace=..., suggestions_count=...,
commands_executed=...)` and reads `SessionStatus.ENDED`.  Both mismatches
are embedded exactly: attribute access on the enum is a total lookup over
its member names, and a dataclass call is checked against the field list
the way Python's generated `__init__` checks keywords.
-/

/-- `types.SessionStatus`: the enum's four members. -/
inductive SessionStatus where
  | active
  | inactive
  | expired
  | blocked
deriving DecidableEq, Repr

/-- Attribute access `SessionStatus.<name>` on the enum class from
`types.py`; any name that is not a member raises `AttributeError`.  In
particular `SessionStatus.ENDED`, which `end_session` reads, does not
exist. -/
def sessionStatusAttr (name : String) : Except PyErr SessionStatus :=
  if name = "ACTIVE" then Except.ok SessionStatus.active
  else if name = "INACTIVE" then Except.ok SessionStatus.inactive
  else if name = "EXPIRED" then Except.ok SessionStatus.expired
  else if name = "BLOCKED" then Except.ok SessionStatus.blocked
  else Except.error PyErr.attributeError

/-- `SessionStatus(value)` — the enum lookup by value used when parsing a
stored record; an unknown value raises `ValueError`. -/
def sessionStatusOfValue (value : String) : Except PyErr SessionStatus :=
  if value = "active" then Except.ok SessionStatus.active
  else if value = "inactive" then Except.ok SessionStatus.inactive
  else if value = "expired" then Except.ok SessionStatus.expired
  else if value = "blocked" then Except.ok SessionStatus.blocked
  else Except.error PyErr.valueError

/-- The field names of the `types.Session` dataclass, in declaration order;
all nine are required (none has a default). -/
def sessionFields : List String :=
  ["id", "whatsapp_user", "vscode_workspace", "status", "created_at",
   "last_activity", "context", "active_suggestions", "metadata"]

/-- The keyword arguments `session_manager.py` passes to `Session(...)`,
both in `create_session` and in `RedisSessionManager.get_session`. -/
def sessionCtorKwargs : List String :=
  ["session_id", "whatsapp_user", "workspace", "status", "created_at",
   "last_activity", "suggestions_count", "commands_executed"]

/-- Python's generated dataclass `__init__` applied with keyword arguments:
a keyword that is not a field, or a required field that is missing, raises
`TypeError`. -/
def pyDataclassInit (fields kwargs : List String) : Except PyErr Unit :=
  if kwargs.all (fun k => fields.contains k) && fields.all (fun f => kwargs.contains f)
  then Except.ok ()
  else Except.error PyErr.typeError

/-- The session record as `session_manager.py` uses it (the attribute set it
writes and reads); statuses still range over the four members the enum
really has. -/
structure SessionRec where
  session_id : String
  whatsapp_user : String
  workspace : Option String
  status : SessionStatus
  created_at : Int
  last_activity : Int
  suggestions_count : Int
  commands_executed : List String
deriving DecidableEq, Repr

namespace InMemorySessionManager

/-- `self.sessions`, `self.user_sessions` and `self.session_ttl`
(24 * 60 * 60 seconds by default). -/
structure State where
  sessions : List (String × SessionRec)
  user_sessions : List (String × String)
  session_ttl : Int
deriving DecidableEq, Repr

/-- A freshly constructed `InMemorySessionManager`. -/
def init : State := ⟨[], [], 24 * 60 * 60⟩

/-- `create_session`: an Active session already indexed for the user is
returned unchanged; otherwise the code calls `Session(session_id=..., ...)`,
whose keywords do not match the `types.Session` dataclass, so the create
branch raises `TypeError` before anything is stored. -/
def create_session (st : State) (whatsapp_user : String) (workspace : Option String)
    (now : Int) (uuid : String) : Except PyErr (SessionRec × State) :=
  let mkNew : Except PyErr (SessionRec × State) :=
    match pyDataclassInit sessionFields sessionCtorKwargs with
    | Except.error e => Except.error e
    | Except.ok _ =>
        let s : SessionRec :=
          ⟨uuid, whatsapp_user, workspace, SessionStatus.active, now, now, 0, []⟩
        Except.ok (s, { st with
          sessions := assocSet st.sessions uuid s,
          user_sessions := assocSet st.user_sessions whatsapp_user uuid })
  match assocFind st.user_sessions whatsapp_user with
  | some sid =>
      match assocFind st.sessions sid with
      | some s =>
          if s.status = SessionStatus.active then Except.ok (s, st) else mkNew
      | Option.none => mkNew
  | Option.none => mkNew

/-- `get_session`: `self.sessions.get(session_id)`. -/
def get_session (st : State) (session_id : String) : Option SessionRec :=
  assocFind st.sessions session_id

/-- `get_user_session`: resolve through the user index; the guard is Python
truthiness, so an empty-string id short-circuits to `None`. -/
def get_user_session (st : State) (user_id : String) : Option SessionRec :=
  match assocFind st.user_sessions user_id with
  | some sid => if sid = "" then Option.none else assocFind st.sessions sid
  | Option.none => Option.none

/-- `end_session`: absent id → plain return (after a log warning); present →
the code reads `SessionStatus.ENDED`, a member the enum does not have, so it
raises `AttributeError` before mutating anything.  The intended mutation is
still written out under the dead `Except.ok` branch. -/
def end_session (st : State) (session_id : String) (now : Int) : Except PyErr State :=
  match assocFind st.sessions session_id with
  | Option.none => Except.ok st
  | some s =>
      match sessionStatusAttr "ENDED" with
      | Except.error e => Except.error e
      | Except.ok ended =>
          let s2 := { s with status := ended, last_activity := now }
          Except.ok { st with
            sessions := assocSet st.sessions session_id s2,
            user_sessions :=
              match assocFind st.user_sessions s.whatsapp_user with
              | some _ => assocErase st.user_sessions s.whatsapp_user
              | Option.none => st.user_sessions }

/-- The `for session_id in expired_sessions: await self.end_session(...)`
loop; the first raised exception propagates. -/
def endEach (now : Int) : State → List String → Except PyErr State
  | st, [] => Except.ok st
  | st, sid :: rest =>
      match end_session st sid now with
      | Except.error e => Except.error e
      | Except.ok st2 => endEach now st2 rest

/-- `cleanup_expired_sessions`: collect ids with
`last_activity < now - session_ttl`, end each, return how many were
collected. -/
def cleanup_expired_sessions (st : State) (now : Int) : Except PyErr (Nat × State) :=
  let cutoff := now - st.session_ttl
  let expired := (st.sessions.filter (fun p => p.2.last_activity < cutoff)).map (fun p => p.1)
  match endEach now st expired with
  | Except.error e => Except.error e
  | Except.ok st2 => Except.ok (expired.length, st2)

end InMemorySessionManager

/-- The decoded hash `hgetall("session:<id>")` yields (`decode_responses=True`
gives text fields; `commands_executed` is kept as the decoded list, since
`json` round-trips it and `json.JSONDecodeError` is a `ValueError` anyway). -/
structure SessionHash where
  session_id : String
  whatsapp_user : String
  workspace : String
  status : String
  created_at : String
  last_activity : String
  suggestions_count : String
  commands_executed : List String
deriving DecidableEq, Repr

namespace RedisSessionManager

/-- `datetime.fromisoformat` / `int(...)` on stored text, over the
integer-second timestamps of this embedding; malformed text raises
`ValueError`. -/
def parseIntText (s : String) : Except PyErr Int :=
  match s.toInt? with
  | some n => Except.ok n
  | Option.none => Except.error PyErr.valueError

/-- `get_session`: hard `RuntimeError` when not connected.  The `hgetall`
call is *outside* the `try`, so a backend exception propagates; an empty
hash is `None`; a present hash is rebuilt with `Session(session_id=..., ...)`
inside `except (KeyError, ValueError)` — parse failures become `None`, but
the dataclass keyword mismatch raises `TypeError`, which that clause does
not catch. -/
def get_session (connected : Bool)
    (backend : String → BackendCall (Option SessionHash))
    (session_id : String) : Except PyErr (Option SessionRec) :=
  if !connected then Except.error PyErr.runtimeError
  else
    match backend ("session:" ++ session_id) with
    | .raises => Except.error PyErr.backendError
    | .returns Option.none => Except.ok Option.none
    | .returns (some h) =>
        let build : Except PyErr SessionRec := do
          let status ← sessionStatusOfValue h.status
          let ca ← parseIntText h.created_at
          let la ← parseIntText h.last_activity
          let sc ← parseIntText h.suggestions_count
          match pyDataclassInit sessionFields sessionCtorKwargs with
          | Except.error e => Except.error e
          | Except.ok _ =>
              Except.ok ⟨h.session_id, h.whatsapp_user,
                (if h.workspace = "" then Option.none else some h.workspace),
                status, ca, la, sc, h.commands_executed⟩
        match build with
        | Except.ok s => Except.ok (some s)
        | Except.error PyErr.valueError => Except.ok Option.none
        | Except.error e => Except.error e

end RedisSessionManager

/-!
### Health aggregation (`health_service.py`)
-/

/-- `health_service.HealthStatus`. -/
inductive HealthStatus where
  | healthy
  | degraded
  | unhealthy
  | unknown
deriving DecidableEq, Repr

namespace HealthService

/-- The overall-status reduction loop of `check_overall_health`: start from
HEALTHY; an UNHEALTHY component wins immediately (`break`); a DEGRADED
component lowers a still-HEALTHY accumulator; UNKNOWN components leave the
accumulator untouched. -/
def overall_status : List HealthStatus → HealthStatus → HealthStatus
  | [], acc => acc
  | c :: rest, acc =>
      if c = HealthStatus.unhealthy then HealthStatus.unhealthy
      else if c = HealthStatus.degraded ∧ acc = HealthStatus.healthy then
        overall_status rest HealthStatus.degraded
      else overall_status rest acc

end HealthService

/-- Modelled from the spec: "overall status = the worst of all produced
component statuses using the ordering Unhealthy > Degraded > Healthy
(Unknown components are excluded from this reduction)" — the comparison
target for the reduction loop. -/
def specWorstStatus (cs : List HealthStatus) : HealthStatus :=
  if HealthStatus.unhealthy ∈ cs then HealthStatus.unhealthy
  else if HealthStatus.degraded ∈ cs then HealthStatus.degraded
  else HealthStatus.healthy

/-- Equality on `Except` results is decidable componentwise (core provides
no such instance), so evaluated outcomes can be settled by `decide`. -/
instance {ε α : Type} [DecidableEq ε] [DecidableEq α] : DecidableEq (Except ε α) :=
  fun a b =>
    match a, b with
    | Except.error e1, Except.error e2 =>
        match decEq e1 e2 with
        | isTrue h => isTrue (congrArg Except.error h)
        | isFalse h => isFalse (fun hh => h (by injection hh))
    | Except.ok v1, Except.ok v2 =>
        match decEq v1 v2 with
        | isTrue h => isTrue (congrArg Except.ok h)
        | isFalse h => isFalse (fun hh => h (by injection hh))
    | Except.error _, Except.ok _ => isFalse (fun hh => by injection hh)
    | Except.ok _, Except.error _ => isFalse (fun hh => by injection hh)

/-- A state of the in-memory session manager holding one Active session
`"sid-1"` for user `"u1"` (used to exercise the already-active and
end-session branches). -/
def sampleActiveSession : SessionRec :=
  ⟨"sid-1", "u1", Option.none, SessionStatus.active, 0, 0, 0, []⟩

/-- The corresponding manager state: the session dict and the user index. -/
def sampleActiveState : InMemorySessionManager.State :=
  ⟨[("sid-1", sampleActiveSession)], [("u1", "sid-1")], 24 * 60 * 60⟩

/-- A state holding one Active session whose `last_activity = 0` — with
`now = 86401` and the default 24h TTL this is `now - ttl - 1`, i.e. expired
by one second. -/
def sampleExpiredState : InMemorySessionManager.State :=
  ⟨[("sid-2", ⟨"sid-2", "u2", Option.none, SessionStatus.active, 0, 0, 0, []⟩)],
   [("u2", "sid-2")], 24 * 60 * 60⟩

/-!
### Helper lemmas
-/

theorem assocFind_assocSet_self {α : Type} (l : List (String × α)) (k : String) (v : α) :
    assocFind (assocSet l k v) k = some v := by
  induction l with
  | nil => simp [assocSet, assocFind]
  | cons hd tl ih =>
      by_cases h : hd.1 = k
      · simp [assocSet, assocFind, h]
      · simpa [assocSet, assocFind, h] using ih

theorem assocFind_assocSet_ne {α : Type} (l : List (String × α)) (k k' : String) (v : α)
    (h : k' ≠ k) : assocFind (assocSet l k v) k' = assocFind l k' := by
  have h2 : k ≠ k' := Ne.symm h
  induction l with
  | nil => simp [assocSet, assocFind, h2]
  | cons hd tl ih =>
      by_cases h1 : hd.1 = k
      · simp [assocSet, assocFind, h1, h2, h1 ▸ h2]
      · by_cases h3 : hd.1 = k' <;> simp [assocSet, assocFind, h1, h3, ih, h]

theorem assocFind_assocErase_self {α : Type} (l : List (String × α)) (k : String) :
    assocFind (assocErase l k) k = Option.none := by
  induction l with
  | nil => simp [assocErase, assocFind]
  | cons hd tl ih =>
      by_cases h : hd.1 = k
      · simpa [assocErase, assocFind, h] using ih
      · simpa [assocErase, assocFind, h] using ih

/-- FIPS 180-4 test vector: the SHA-256 digest of the empty message. -/
theorem sha256Hex_empty :
    sha256Hex "" = "e3b0c44298fc1c149afbf4c8996fb92427ae41e4649b934ca495991b7852b855" := by
  decide

/-- FIPS 180-4 test vector: the SHA-256 digest of "abc". -/
theorem sha256Hex_abc :
    sha256Hex "abc" = "ba7816bf8f01cfea414140de5dae2223b00361a396177a9cb410ff61f20015ad" := by
  decide

theorem overall_status_from_degraded (cs : List HealthStatus) :
    HealthService.overall_status cs HealthStatus.degraded =
      (if HealthStatus.unhealthy ∈ cs then HealthStatus.unhealthy
       else HealthStatus.degraded) := by
  induction cs with
  | nil => simp [HealthService.overall_status]
  | cons c rest ih =>
      by_cases hu : c = HealthStatus.unhealthy
      · simp [HealthService.overall_status, hu]
      · simp [HealthService.overall_status, hu, Ne.symm hu, ih]

theorem overall_status_from_healthy (cs : List HealthStatus) :
    HealthService.overall_status cs HealthStatus.healthy = specWorstStatus cs := by
  induction cs with
  | nil => simp [HealthService.overall_status, specWorstStatus]
  | cons c rest ih =>
      by_cases hu : c = HealthStatus.unhealthy
      · simp [HealthService.overall_status, specWorstStatus, hu]
      · by_cases hd : c = HealthStatus.degraded
        · simp [HealthService.overall_status, specWorstStatus, hd,
                overall_status_from_degraded]
        · simp [HealthService.overall_status, specWorstStatus, hu, hd,
                Ne.symm hu, Ne.symm hd, ih]

theorem stringAppendCancelRight (a b c : String) (h : a ++ c = b ++ c) : a = b := by
  have hd : a.data ++ c.data = b.data ++ c.data := by
    have := congrArg String.data h
    simpa [String.data_append] using this
  have := List.append_cancel_right hd
  cases a; cases b; exact congrArg String.mk this

theorem stringAppendCancelLeft (a b c : String) (h : a ++ b = a ++ c) : b = c := by
  have hd : a.data ++ b.data = a.data ++ c.data := by
    have := congrArg String.data h
    simpa [String.data_append] using this
  have := List.append_cancel_left hd
  cases b; cases c; exact congrArg String.mk this

/-- `context or ''` acts as `Option.getD ""`: the `if` in the `some` branch
is the identity, since its `then` value is the scrutinee itself. -/
theorem suggestion_content_as_append (code lang : String) (ctx : Option String) :
    CacheManager.suggestion_content code lang ctx =
      code ++ "|" ++ lang ++ "|" ++ ctx.getD "" := by
  cases ctx with
  | none => rfl
  | some c =>
      by_cases hc : c = ""
      · subst hc; rfl
      · simp [CacheManager.suggestion_content, hc]

/-!
### The frozen claims
-/

/-- Claim C6, counterexample: two different argument lists — context `None`
versus context `""` — yield the identical digest, because
`f"{code}|{language}|{context or ''}"` canonicalizes both to the same
content string; so changing one argument does not always change the key. -/
theorem C6_counterexample_context_aliasing :
    CacheManager.cache_key_for_suggestion "print(1)" "python" Option.none =
      CacheManager.cache_key_for_suggestion "print(1)" "python" (some "") ∧
    (Option.none : Option String) ≠ some "" :=
  ⟨rfl, by decide⟩

/-- Claim C6 (amended): `cache_key_for_suggestion` is deterministic, and a
(one-character or any other) change confined to a single field changes the
content string that is hashed — hence the digest, short of a SHA-256
collision, as witnessed concretely by the final conjunct — but changing the
optional context between `None` and `""` leaves the digest unchanged, since
`context or ''` canonicalizes both to the empty string. -/
theorem C6_key_derivation (code code2 lang lang2 c c2 : String) (ctx : Option String) :
    (CacheManager.cache_key_for_suggestion code lang ctx =
      CacheManager.cache_key_for_suggestion code lang ctx) ∧
    (code ≠ code2 →
      CacheManager.suggestion_content code lang ctx ≠
        CacheManager.suggestion_content code2 lang ctx) ∧
    (lang ≠ lang2 →
      CacheManager.suggestion_content code lang ctx ≠
        CacheManager.suggestion_content code lang2 ctx) ∧
    (c ≠ c2 →
      CacheManager.suggestion_content code lang (some c) ≠
        CacheManager.suggestion_content code lang (some c2)) ∧
    (CacheManager.cache_key_for_suggestion code lang Option.none =
      CacheManager.cache_key_for_suggestion code lang (some "")) ∧
    CacheManager.cache_key_for_suggestion "a" "python" Option.none ≠
      CacheManager.cache_key_for_suggestion "b" "python" Option.none := by
  refine ⟨rfl, ?_, ?_, ?_, ?_, by decide⟩
  · intro hne heq
    rw [suggestion_content_as_append, suggestion_content_as_append] at heq
    exact hne (stringAppendCancelRight _ _ _ (stringAppendCancelRight _ _ _
      (stringAppendCancelRight _ _ _ (stringAppendCancelRight _ _ _ heq))))
  · intro hne heq
    rw [suggestion_content_as_append, suggestion_content_as_append] at heq
    have h1 := stringAppendCancelRight _ _ _ (stringAppendCancelRight _ _ _ heq)
    exact hne (stringAppendCancelLeft _ _ _ h1)
  · intro hne heq
    rw [suggestion_content_as_append, suggestion_content_as_append] at heq
    exact hne (stringAppendCancelLeft _ _ _ heq)
  · simp [CacheManager.cache_key_for_suggestion,
          suggestion_content_as_append]

/-- Witness for the amended Claim C6 theorem at concrete inputs: the
one-field-change hypotheses hold at `"a" ≠ "b"`, `"py" ≠ "js"` and
`"u" ≠ "v"`, and the corresponding content strings do differ. -/
theorem C6_key_derivation_witness :
    (("a" : String) ≠ "b" ∧
      CacheManager.suggestion_content "a" "py" Option.none ≠
        CacheManager.suggestion_content "b" "py" Option.none) ∧
    (("py" : String) ≠ "js" ∧
      CacheManager.suggestion_content "x" "py" Option.none ≠
        CacheManager.suggestion_content "x" "js" Option.none) ∧
    (("u" : String) ≠ "v" ∧
      CacheManager.suggestion_content "x" "py" (some "u") ≠
        CacheManager.suggestion_content "x" "py" (some "v")) :=
  ⟨⟨by decide, (C6_key_derivation "a" "b" "py" "js" "u" "v" Option.none).2.1 (by decide)⟩,
   ⟨by decide, (C6_key_derivation "x" "x" "py" "js" "u" "v" Option.none).2.2.1 (by decide)⟩,
   ⟨by decide, (C6_key_derivation "x" "x" "py" "js" "u" "v" Option.none).2.2.2.1 (by decide)⟩⟩

/-- Claim C8: the overall status computed by `check_overall_health`'s
reduction loop equals, for every list of produced component statuses, the
worst element under Unhealthy > Degraded > Healthy with Unknown excluded
(`specWorstStatus`), and the three instances named by the spec hold. -/
theorem C8_overall_health_is_worst (cs : List HealthStatus) :
    HealthService.overall_status cs HealthStatus.healthy = specWorstStatus cs ∧
    HealthService.overall_status [HealthStatus.healthy, HealthStatus.degraded]
      HealthStatus.healthy = HealthStatus.degraded ∧
    HealthService.overall_status
      [HealthStatus.healthy, HealthStatus.unhealthy, HealthStatus.degraded]
      HealthStatus.healthy = HealthStatus.unhealthy ∧
    HealthService.overall_status [HealthStatus.unknown] HealthStatus.healthy =
      HealthStatus.healthy :=
  ⟨overall_status_from_healthy cs, by decide, by decide, by decide⟩

/-- Claim C5: after `set(k, v)` succeeds at time `t0`, the stored entry has
`expires_at = created_at + ttl` (default 3600); `get(k)` strictly before
`expires_at` returns `v` with the store untouched; `get(k)` strictly after
`expires_at` returns absent and lazily removes the entry, so a subsequent
`exists(k)` is `false`. -/
theorem C5_cache_ttl_roundtrip (st : InMemoryCacheService.State) (key ns : String)
    (v : PyVal) (ttl : Option Int) (t0 t1 t2 : Int)
    (h1 : t1 < t0 + pyTtlOrDefault ttl) (h2 : t0 + pyTtlOrDefault ttl < t2) :
    (InMemoryCacheService.set st key v ttl ns t0).1 = true ∧
    assocFind (InMemoryCacheService.set st key v ttl ns t0).2.cache
        (InMemoryCacheService._make_key key ns) =
      some ⟨v, t0 + pyTtlOrDefault ttl, t0⟩ ∧
    InMemoryCacheService.get (InMemoryCacheService.set st key v ttl ns t0).2 key ns t1 =
      (v, (InMemoryCacheService.set st key v ttl ns t0).2) ∧
    (InMemoryCacheService.get (InMemoryCacheService.set st key v ttl ns t0).2 key ns t2).1 =
      PyVal.none ∧
    assocFind
        (InMemoryCacheService.get (InMemoryCacheService.set st key v ttl ns t0).2 key ns t2).2.cache
        (InMemoryCacheService._make_key key ns) = Option.none ∧
    (InMemoryCacheService.exists_
        (InMemoryCacheService.get (InMemoryCacheService.set st key v ttl ns t0).2 key ns t2).2
        key ns t2).1 = false := by
  have hfind : assocFind (InMemoryCacheService.set st key v ttl ns t0).2.cache
      (InMemoryCacheService._make_key key ns) =
      some ⟨v, t0 + pyTtlOrDefault ttl, t0⟩ := by
    simp [InMemoryCacheService.set, assocFind_assocSet_self]
  have hlive : ¬ InMemoryCacheService._is_expired t1 ⟨v, t0 + pyTtlOrDefault ttl, t0⟩ = true := by
    simp only [InMemoryCacheService._is_expired, decide_eq_true_eq]
    omega
  have hdead : InMemoryCacheService._is_expired t2 ⟨v, t0 + pyTtlOrDefault ttl, t0⟩ = true := by
    simp only [InMemoryCacheService._is_expired, decide_eq_true_eq]
    omega
  have hget2 : (InMemoryCacheService.get (InMemoryCacheService.set st key v ttl ns t0).2 key ns t2) =
      (PyVal.none, ⟨assocErase (InMemoryCacheService.set st key v ttl ns t0).2.cache
        (InMemoryCacheService._make_key key ns)⟩) := by
    simp [InMemoryCacheService.get, hfind, hdead]
  refine ⟨rfl, hfind, ?_, ?_, ?_, ?_⟩
  · simp [InMemoryCacheService.get, hfind, hlive]
  · rw [hget2]
  · rw [hget2]
    exact assocFind_assocErase_self _ _
  · rw [hget2]
    simp [InMemoryCacheService.exists_, assocFind_assocErase_self]

/-- Witness for Claim C5 at a concrete instance: `t1 = 5` is before and
`t2 = 4000` after the default 3600-second expiry of a `set` at `t0 = 0`. -/
theorem C5_cache_ttl_roundtrip_witness :
    ((5 : Int) < 0 + pyTtlOrDefault Option.none ∧
      0 + pyTtlOrDefault Option.none < (4000 : Int)) ∧
    InMemoryCacheService.get
        (InMemoryCacheService.set ⟨[]⟩ "k" (PyVal.str "x") Option.none "default" 0).2
        "k" "default" 5 =
      (PyVal.str "x",
        (InMemoryCacheService.set ⟨[]⟩ "k" (PyVal.str "x") Option.none "default" 0).2) ∧
    (InMemoryCacheService.get
        (InMemoryCacheService.set ⟨[]⟩ "k" (PyVal.str "x") Option.none "default" 0).2
        "k" "default" 4000).1 = PyVal.none :=
  ⟨⟨by decide, by decide⟩,
   (C5_cache_ttl_roundtrip ⟨[]⟩ "k" "default" (PyVal.str "x") Option.none 0 5 4000
     (by decide) (by decide)).2.2.1,
   (C5_cache_ttl_roundtrip ⟨[]⟩ "k" "default" (PyVal.str "x") Option.none 0 5 4000
     (by decide) (by decide)).2.2.2.1⟩

/-- A stored entry whose value is Python `None` makes `get` return `None`
whether or not the entry is also expired. -/
theorem get_fst_of_value_none (st : InMemoryCacheService.State) (key ns : String)
    (now ee ce : Int)
    (h : assocFind st.cache (InMemoryCacheService._make_key key ns) =
      some ⟨PyVal.none, ee, ce⟩) :
    (InMemoryCacheService.get st key ns now).1 = PyVal.none := by
  simp only [InMemoryCacheService.get, h]
  by_cases hexp : InMemoryCacheService._is_expired now ⟨PyVal.none, ee, ce⟩ = true
  · simp [hexp]
  · simp [hexp]

/-- When the underlying `get` yields `None`, `get_or_set` takes the miss
branch: it counts a miss, stores the computed value, and returns it. -/
theorem get_or_set_miss (cm : CacheManager.State) (key ns : String) (cv : PyVal)
    (ttl : Option Int) (now : Int)
    (h : (InMemoryCacheService.get cm.svc key ns now).1 = PyVal.none) :
    CacheManager.get_or_set cm key cv ttl ns now =
      (cv, ⟨cm.hit_count, cm.miss_count + 1,
        (InMemoryCacheService.set (InMemoryCacheService.get cm.svc key ns now).2
          key cv ttl ns now).2⟩) := by
  rcases heq : InMemoryCacheService.get cm.svc key ns now with ⟨cached, svc1⟩
  rw [heq] at h
  simp only at h
  subst h
  simp [CacheManager.get_or_set, heq]

theorem pyRound2_fifty : pyRound2 50 = 50 := by
  have hx : (50 : Rat) * 100 = 5000 := by norm_num
  have hf : Rat.floor (5000 : Rat) = 5000 := by rfl
  simp only [pyRound2, hx, hf]
  norm_num

theorem pyRound2_zero : pyRound2 0 = 0 := by
  have hx : (0 : Rat) * 100 = 0 := by norm_num
  have hf : Rat.floor (0 : Rat) = 0 := by rfl
  simp only [pyRound2, hx, hf]
  norm_num

/-- Claim C9: starting from zero counters, a `get_or_set` miss followed by a
`get_or_set` hit on the same key gives `hit_count = 1`, `miss_count = 1`,
`total_requests = 2` and `hit_ratio_percent = 50`; with no requests the
ratio is `0`; and in general `total_requests = hit_count + miss_count` and
the ratio is `hit_count / total * 100` rounded to two decimals. -/
theorem C9_hit_miss_accounting (h m : Nat) (svc : InMemoryCacheService.State) :
    (CacheManager.get_cache_stats
        (CacheManager.get_or_set
          (CacheManager.get_or_set CacheManager.init "k" (PyVal.str "v")
            Option.none "default" 0).2
          "k" (PyVal.str "v") Option.none "default" 0).2).hit_count = 1 ∧
    (CacheManager.get_cache_stats
        (CacheManager.get_or_set
          (CacheManager.get_or_set CacheManager.init "k" (PyVal.str "v")
            Option.none "default" 0).2
          "k" (PyVal.str "v") Option.none "default" 0).2).miss_count = 1 ∧
    (CacheManager.get_cache_stats
        (CacheManager.get_or_set
          (CacheManager.get_or_set CacheManager.init "k" (PyVal.str "v")
            Option.none "default" 0).2
          "k" (PyVal.str "v") Option.none "default" 0).2).total_requests = 2 ∧
    (CacheManager.get_cache_stats
        (CacheManager.get_or_set
          (CacheManager.get_or_set CacheManager.init "k" (PyVal.str "v")
            Option.none "default" 0).2
          "k" (PyVal.str "v") Option.none "default" 0).2).hit_ratio_percent = 50 ∧
    (CacheManager.get_cache_stats CacheManager.init).hit_ratio_percent = 0 ∧
    (CacheManager.get_cache_stats ⟨h, m, svc⟩).total_requests = h + m ∧
    (CacheManager.get_cache_stats ⟨h, m, svc⟩).hit_ratio_percent =
      pyRound2 (if 0 < h + m then (h : Rat) / ((h + m : Nat) : Rat) * 100 else 0) := by
  have hstate : (CacheManager.get_or_set
      (CacheManager.get_or_set CacheManager.init "k" (PyVal.str "v")
        Option.none "default" 0).2
      "k" (PyVal.str "v") Option.none "default" 0).2 =
      ⟨1, 1, ⟨[("default:k", ⟨PyVal.str "v", 3600, 0⟩)]⟩⟩ := by decide
  refine ⟨by rw [hstate]; rfl, by rw [hstate]; rfl, by rw [hstate]; rfl, ?_, ?_, rfl, rfl⟩
  · rw [hstate]
    simp only [CacheManager.get_cache_stats]
    norm_num
    exact pyRound2_fifty
  · simp only [CacheManager.get_cache_stats, CacheManager.init]
    norm_num
    exact pyRound2_zero

/-- Claim C10: a stored `None` is indistinguishable from an absent key —
`get` returns `None` for both; `get_or_set` treats a stored `None` as a miss
(counting it and re-invoking the computation), and when the computation
itself returns `None`, a second call misses again; `mget` omits the key. -/
theorem C10_none_value_is_absent (stc : InMemoryCacheService.State)
    (key ns : String) (now ee ce : Int) (h0 m0 : Nat) (ttl : Option Int) (cv : PyVal)
    (stm : InMemoryCacheService.State)
    (h : assocFind stc.cache (InMemoryCacheService._make_key key ns) =
      some ⟨PyVal.none, ee, ce⟩)
    (hm : assocFind stm.cache (InMemoryCacheService._make_key key ns) = Option.none) :
    (InMemoryCacheService.get stc key ns now).1 = PyVal.none ∧
    InMemoryCacheService.get stm key ns now = (PyVal.none, stm) ∧
    (CacheManager.get_or_set ⟨h0, m0, stc⟩ key cv ttl ns now).1 = cv ∧
    (CacheManager.get_or_set ⟨h0, m0, stc⟩ key cv ttl ns now).2.miss_count = m0 + 1 ∧
    (CacheManager.get_or_set ⟨h0, m0, stc⟩ key cv ttl ns now).2.hit_count = h0 ∧
    (CacheManager.get_or_set
        (CacheManager.get_or_set ⟨h0, m0, stc⟩ key PyVal.none ttl ns now).2
        key PyVal.none ttl ns now).2.miss_count = m0 + 2 ∧
    (CacheManager.mget ⟨h0, m0, stc⟩ [key] ns now).1 = [] := by
  have hget1 := get_fst_of_value_none stc key ns now ee ce h
  have hmiss1 := get_or_set_miss ⟨h0, m0, stc⟩ key ns cv ttl now hget1
  have hmiss1n := get_or_set_miss ⟨h0, m0, stc⟩ key ns PyVal.none ttl now hget1
  have hget2 : (InMemoryCacheService.get
      (CacheManager.get_or_set ⟨h0, m0, stc⟩ key PyVal.none ttl ns now).2.svc
      key ns now).1 = PyVal.none := by
    rw [hmiss1n]
    exact get_fst_of_value_none _ key ns now (now + pyTtlOrDefault ttl) now
      (by simp [InMemoryCacheService.set, assocFind_assocSet_self])
  have hmiss2 := get_or_set_miss
    (CacheManager.get_or_set ⟨h0, m0, stc⟩ key PyVal.none ttl ns now).2
    key ns PyVal.none ttl now hget2
  refine ⟨hget1, ?_, ?_, ?_, ?_, ?_, ?_⟩
  · simp [InMemoryCacheService.get, hm]
  · rw [hmiss1]
  · rw [hmiss1]
  · rw [hmiss1]
  · rw [hmiss2, hmiss1n]
  · rcases heq : InMemoryCacheService.get stc key ns now with ⟨cached, svc1⟩
    have hc : cached = PyVal.none := by rw [heq] at hget1; simpa using hget1
    subst hc
    simp [CacheManager.mget, heq]

/-- Witness for Claim C10: a one-entry store holding `None` under
`"default:k"` and an empty store, with both hypotheses discharged by
evaluation. -/
theorem C10_none_value_is_absent_witness :
    (assocFind (⟨[("default:k", ⟨PyVal.none, 3600, 0⟩)]⟩ :
        InMemoryCacheService.State).cache
        (InMemoryCacheService._make_key "k" "default") =
      some ⟨PyVal.none, 3600, 0⟩) ∧
    (assocFind (⟨[]⟩ : InMemoryCacheService.State).cache
        (InMemoryCacheService._make_key "k" "default") = Option.none) ∧
    (CacheManager.get_or_set ⟨0, 0, ⟨[("default:k", ⟨PyVal.none, 3600, 0⟩)]⟩⟩
        "k" (PyVal.str "w") Option.none "default" 1).2.miss_count = 0 + 1 ∧
    (CacheManager.mget ⟨0, 0, ⟨[("default:k", ⟨PyVal.none, 3600, 0⟩)]⟩⟩
        ["k"] "default" 1).1 = [] :=
  ⟨by decide, by decide,
   (C10_none_value_is_absent ⟨[("default:k", ⟨PyVal.none, 3600, 0⟩)]⟩ "k" "default"
      1 3600 0 0 0 Option.none (PyVal.str "w") ⟨[]⟩ (by decide) (by decide)).2.2.2.1,
   (C10_none_value_is_absent ⟨[("default:k", ⟨PyVal.none, 3600, 0⟩)]⟩ "k" "default"
      1 3600 0 0 0 Option.none (PyVal.str "w") ⟨[]⟩ (by decide) (by decide)).2.2.2.2.2.2⟩

/-- Claim C7, counterexample: a backend exception inside
`RedisSessionManager.get_session` after connection is *not* converted to a
benign value — the `hgetall` call sits outside the `try`, so the exception
propagates to the caller instead of yielding absent. -/
theorem C7_counterexample_get_session_propagates :
    RedisSessionManager.get_session true (fun _ => BackendCall.raises) "s1" =
      Except.error PyErr.backendError ∧
    RedisSessionManager.get_session true (fun _ => BackendCall.raises) "s1" ≠
      Except.ok Option.none :=
  ⟨rfl, by decide⟩

/-- Claim C7 (amended): every Redis-backed cache-store and session-store
operation raises a hard `RuntimeError` when called before the connection is
established; after connection the cache-store operations convert any backend
exception to their benign value (`None` for get, `False` for set / delete /
exists, `0` for clear_namespace), while the session store propagates backend
exceptions (`get_session` shown) and converts only record-parse
`ValueError`s to absent. -/
theorem C7_error_handling (key ns sid : String) (v : PyVal) (ttl : Option Int)
    (bGet : String → BackendCall (Option Serialized))
    (bSet : String → Int → Serialized → BackendCall Unit)
    (bCnt : String → BackendCall Int)
    (bKeys : String → BackendCall (List String))
    (bDel : List String → BackendCall Int)
    (bSess : String → BackendCall (Option SessionHash)) :
    RedisCacheService.get false bGet key ns = Except.error PyErr.runtimeError ∧
    RedisCacheService.set false bSet key v ttl ns = Except.error PyErr.runtimeError ∧
    RedisCacheService.delete false bCnt key ns = Except.error PyErr.runtimeError ∧
    RedisCacheService.exists_ false bCnt key ns = Except.error PyErr.runtimeError ∧
    RedisCacheService.clear_namespace false bKeys bDel ns =
      Except.error PyErr.runtimeError ∧
    RedisSessionManager.get_session false bSess sid =
      Except.error PyErr.runtimeError ∧
    RedisCacheService.get true (fun _ => BackendCall.raises) key ns =
      Except.ok PyVal.none ∧
    RedisCacheService.set true (fun _ _ _ => BackendCall.raises) key v ttl ns =
      Except.ok false ∧
    RedisCacheService.delete true (fun _ => BackendCall.raises) key ns =
      Except.ok false ∧
    RedisCacheService.exists_ true (fun _ => BackendCall.raises) key ns =
      Except.ok false ∧
    RedisCacheService.clear_namespace true (fun _ => BackendCall.raises) bDel ns =
      Except.ok 0 ∧
    RedisCacheService.clear_namespace true bKeys (fun _ => BackendCall.raises) ns =
      Except.ok 0 ∧
    RedisSessionManager.get_session true (fun _ => BackendCall.raises) sid =
      Except.error PyErr.backendError ∧
    RedisSessionManager.get_session true
        (fun _ => BackendCall.returns (some ⟨"s", "u", "", "bogus", "0", "0", "0", []⟩))
        sid =
      Except.ok Option.none := by
  refine ⟨rfl, rfl, rfl, rfl, rfl, rfl, rfl, rfl, rfl, rfl, ?_, ?_, rfl, rfl⟩
  · simp only [RedisCacheService.clear_namespace, Bool.not_true, Bool.false_eq_true,
      if_false]
  · simp only [RedisCacheService.clear_namespace, Bool.not_true, Bool.false_eq_true,
      if_false]
    cases bKeys ("mcp_cache:" ++ ns ++ ":*") with
    | raises => rfl
    | returns l =>
        cases l with
        | nil => rfl
        | cons a b => rfl

/-- Claim C1: on a fresh manager, the very first `create_session("u1")`
already raises `TypeError` — `Session(session_id=...)` does not match the
`types.Session` dataclass, whose fields lack `session_id` — so two calls in
a row cannot both return a session; only the already-Active branch (second
conjunct, on a state holding an Active session) returns the session
unchanged as the claim describes. -/
theorem C1_create_session_idempotence_bug :
    InMemorySessionManager.create_session InMemorySessionManager.init "u1"
        Option.none 0 "uuid-1" = Except.error PyErr.typeError ∧
    InMemorySessionManager.create_session sampleActiveState "u1"
        Option.none 0 "uuid-2" = Except.ok (sampleActiveSession, sampleActiveState) ∧
    sessionFields.contains "session_id" = false := by
  decide

/-- Claim C2: for a user with no existing session, `create_session(u, "/ws")`
does not return an Active session — it raises `TypeError`, because the
keyword set passed to the `types.Session` dataclass does not match its
fields (second conjunct evaluates that mismatch directly). -/
theorem C2_create_session_fresh_bug :
    InMemorySessionManager.create_session InMemorySessionManager.init "u1"
        (some "/ws") 0 "uuid-3" = Except.error PyErr.typeError ∧
    pyDataclassInit sessionFields sessionCtorKwargs = Except.error PyErr.typeError := by
  decide

/-- Claim C3: `end_session` on an absent id is indeed a no-op returning
normally; but on a present session it raises `AttributeError` at
`SessionStatus.ENDED` — the enum in `types.py` has no such member — before
touching the status, the user index or anything else. -/
theorem C3_end_session_bug :
    InMemorySessionManager.end_session InMemorySessionManager.init "missing" 0 =
      Except.ok InMemorySessionManager.init ∧
    InMemorySessionManager.end_session sampleActiveState "sid-1" 1 =
      Except.error PyErr.attributeError ∧
    sessionStatusAttr "ENDED" = Except.error PyErr.attributeError := by
  decide

/-- Claim C4: a session with `last_activity = now - ttl - 1` is selected by
the sweep, but ending it raises `AttributeError` (missing
`SessionStatus.ENDED`), so `cleanup_expired_sessions` crashes instead of
reaping and returning 1; with nothing expired it does return 0 and leaves
the state unchanged. -/
theorem C4_cleanup_expired_bug :
    InMemorySessionManager.cleanup_expired_sessions sampleExpiredState 86401 =
      Except.error PyErr.attributeError ∧
    InMemorySessionManager.cleanup_expired_sessions sampleActiveState 0 =
      Except.ok (0, sampleActiveState) := by
  decide
